import Mathlib

/-!
Shallow embedding of the RSVP core of `tunedev/bts-server`
(`handlers_rsvp.go`, the admin handlers, and `internal/database`).

The SQLite store is modelled as an in-memory state (`DBState`): the
`rsvps` list is kept in insertion order (`submitted_at` ascending, the
order the queries use), and the schema constraints of `autoMigrate`
(UNIQUE on `rsvps.email`, `rsvps.phone` and the primary keys, and the
CHECK on `rsvps.status`) are enforced by the write operations.  Go `int`
values are modelled as `Int`, with every arithmetic operation the Go
handlers perform reduced by `wrap64` to two's-complement 64-bit
semantics, so the admission comparison wraps exactly as the source does.
Timestamps are not modelled: no claim mentions them and the only use is
the insertion ordering already maintained by the list.
-/

namespace BTS

/-- UUID values are modelled as their canonical lowercase string
rendering: `github.com/google/uuid` values normalise to this form when
rendered, stored through the SQL driver, or compared. -/
abbrev UUID := String

/-- Models `uuid.Nil`, the zero UUID (the Go zero value of `uuid.UUID`). -/
def uuidNil : UUID := "00000000-0000-0000-0000-000000000000"

/-- Decides whether a character is a hexadecimal digit. -/
def isHexChar (c : Char) : Bool :=
  c.isDigit || ('a' ≤ c && c ≤ 'f') || ('A' ≤ c && c ≤ 'F')

/-- Lowercases a string character by character (the normalisation
`uuid.Parse` applies to the hexadecimal digits of its input). -/
def lowerString (s : String) : String :=
  String.mk (s.data.map Char.toLower)

/-- Models `uuid.Parse` from `github.com/google/uuid` for the canonical
8-4-4-4-12 hyphenated form: 36 characters, hyphens at positions 8, 13,
18 and 23, hexadecimal digits elsewhere, normalised to lowercase.  (The
library also accepts a few alternative encodings; for the handlers
modelled here only the well-formed / malformed distinction and the
normalised value matter.) -/
def parseUUID (s : String) : Option UUID :=
  let cs := (lowerString s).data
  if cs.length == 36 &&
      (List.range 36).all (fun i =>
        if i == 8 || i == 13 || i == 18 || i == 23 then cs.getD i ' ' == '-'
        else isHexChar (cs.getD i ' ')) then
    some (lowerString s)
  else
    none

/-- Go's two's-complement 64-bit integer semantics: reduces a
mathematical integer to the representative in [-2^63, 2^63) that a Go
`int` addition or subtraction produces.  The numerals are 2^63 and
2^64. -/
def wrap64 (x : Int) : Int :=
  (x + 9223372036854775808) % 18446744073709551616 - 9223372036854775808

/-- Models the `GuestCategory` row of `internal/database` (`guest_categories`
table).  `created_at` is not modelled: no claim mentions it. -/
structure GuestCategory where
  id : UUID
  name : String
  side : String
  maxGuests : Int
  invitationToken : Option String
  defaultCategory : Bool
  coupleID : UUID
  deriving Repr, DecidableEq

/-- Models the zero value `GuestCategory{}` returned by the Go accessors
when `sql.ErrNoRows` is swallowed. -/
def emptyGuestCategory : GuestCategory :=
  { id := uuidNil, name := "", side := "", maxGuests := 0,
    invitationToken := none, defaultCategory := false, coupleID := uuidNil }

/-- Models the `RSVP` row of `internal/database/rsvp.go` (`rsvps` table).
`categoryID` models `uuid.NullUUID`: `none` is `Valid = false` (SQL NULL),
`some u` is `Valid = true` with value `u`.  `submitted_at` is not modelled
(see the file comment). -/
structure RSVP where
  id : UUID
  guestName : String
  numberOfGuests : Int
  email : String
  phone : String
  status : String
  categoryID : Option UUID
  deriving Repr, DecidableEq

/-- Models the zero value `RSVP{}` returned by `GetRSVP` when
`sql.ErrNoRows` is swallowed. -/
def emptyRSVP : RSVP :=
  { id := uuidNil, guestName := "", numberOfGuests := 0, email := "",
    phone := "", status := "", categoryID := none }

/-- The persisted state: the `guest_categories` and `rsvps` tables.
`rsvps` is kept in insertion order (ascending `submitted_at`). -/
structure DBState where
  categories : List GuestCategory
  rsvps : List RSVP
  deriving Repr, DecidableEq

/-- Errors surfaced by the modelled store operations, abstracting the
SQLite error strings the Go layer inspects. -/
inductive DBError where
  /-- SQLite "UNIQUE constraint failed: ..." (unique column or primary key). -/
  | uniqueConstraint
  /-- SQLite CHECK constraint violation (`rsvps.status`). -/
  | checkConstraint
  /-- SQLite "no such column" query compilation failure. -/
  | noSuchColumn
  /-- The `AssignCategoryToRSVP` zero-rows-affected error. -/
  | notFoundUpdate
  deriving Repr, DecidableEq

/-- The status values admitted by the `rsvps.status` CHECK constraint in
`autoMigrate`. -/
def allowedStatuses : List String := ["PENDING", "APPROVED", "REJECTED"]

/-- Models `Client.GetCategory`: `SELECT ... FROM guest_categories WHERE
id = ?`.  On `sql.ErrNoRows` the Go code returns the zero `GuestCategory`
and a nil error, so a missed lookup is invisible to callers; the model
therefore returns the zero value directly.  (The non-nil-error path of
the Go function is a real storage fault, outside this pure store.) -/
def GetCategory (db : DBState) (id : UUID) : GuestCategory :=
  (db.categories.find? (fun c => c.id == id)).getD emptyGuestCategory

/-- Models `Client.GetRSVP`: `SELECT ... FROM rsvps WHERE id = ?`, with
`sql.ErrNoRows` likewise swallowed into the zero `RSVP` and a nil error. -/
def GetRSVP (db : DBState) (id : UUID) : RSVP :=
  (db.rsvps.find? (fun r => r.id == id)).getD emptyRSVP

/-- The live approved-guest aggregate: `SELECT COALESCE(SUM(number_of_guests), 0)
FROM rsvps WHERE category_id = ? AND status = 'APPROVED'`.  The sum is
kept mathematical: SQLite's integer SUM raises an "integer overflow"
error instead of wrapping, so within the error-free runs modelled here
the aggregate equals the mathematical sum. -/
def approvedGuestSum (db : DBState) (categoryID : UUID) : Int :=
  (db.rsvps.filter (fun r =>
      r.categoryID == some categoryID && r.status == "APPROVED")).foldl
    (fun acc r => acc + r.numberOfGuests) 0

/-- Models `Client.GetApprovedGuestCount` including its Go calling
convention: on a storage failure the function returns `0, err`.  The
`fault` flag injects such a failure; the second component is the error
indicator the caller may or may not inspect. -/
def GetApprovedGuestCountGo (db : DBState) (categoryID : UUID)
    (fault : Bool) : Int × Bool :=
  if fault then (0, true) else (approvedGuestSum db categoryID, false)

/-- Models `database.CreateRSVPParams`. -/
structure CreateRSVPParams where
  guestName : String
  numberOfGuests : Int
  email : String
  phone : String
  categoryID : Option UUID
  deriving Repr, DecidableEq

/-- Models `Client.CreateRSVP`: INSERT into `rsvps` followed by
`GetRSVP(id)`.  The fresh `uuid.New()` primary key is passed in as
`freshId` (making the generator's nondeterminism explicit).  The INSERT
enforces the schema of `autoMigrate`: the CHECK on `status`, and
uniqueness of `email`, `phone` and the primary key (all of which SQLite
reports as "UNIQUE constraint failed").  On error the store is
unchanged. -/
def CreateRSVP (db : DBState) (params : CreateRSVPParams) (status : String)
    (freshId : UUID) : Except DBError (RSVP × DBState) :=
  if !(allowedStatuses.contains status) then
    .error .checkConstraint
  else if db.rsvps.any (fun r =>
      r.id == freshId || r.email == params.email || r.phone == params.phone) then
    .error .uniqueConstraint
  else
    let newRSVP : RSVP :=
      { id := freshId, guestName := params.guestName,
        numberOfGuests := params.numberOfGuests, email := params.email,
        phone := params.phone, status := status,
        categoryID := params.categoryID }
    .ok (newRSVP, { db with rsvps := db.rsvps ++ [newRSVP] })

/-- Models `Client.UpdateRSVPStatus`: `UPDATE rsvps SET status = ? WHERE
id = ?`.  SQLite evaluates the `status` CHECK constraint on every updated
row, so the statement fails iff some row matches the id and the new
status is outside `allowedStatuses`; with no matching row the statement
succeeds vacuously (the Go code does not inspect rows-affected here). -/
def UpdateRSVPStatus (db : DBState) (id : UUID) (status : String) :
    Except DBError DBState :=
  if db.rsvps.any (fun r => r.id == id) && !(allowedStatuses.contains status) then
    .error .checkConstraint
  else
    .ok { db with rsvps := db.rsvps.map (fun r =>
      if r.id == id then { r with status := status } else r) }

/-- Models `Client.AssignCategoryToRSVP`: `UPDATE rsvps SET category_id = ?
WHERE id = ?`, returning an error when zero rows were affected.  Foreign
keys are not enforced: the go-sqlite3 driver leaves `PRAGMA foreign_keys`
off for the plain file DSN used in `main.go`. -/
def AssignCategoryToRSVP (db : DBState) (rsvpID categoryID : UUID) :
    Except DBError DBState :=
  if db.rsvps.any (fun r => r.id == rsvpID) then
    .ok { db with rsvps := db.rsvps.map (fun r =>
      if r.id == rsvpID then { r with categoryID := some categoryID } else r) }
  else
    .error .notFoundUpdate

/-- Models `Client.ListAllRSVPs`.  Both filtering branches of the Go code
append `WHERE status = ? AND side = ?` to the query, but `side` is not a
column of the `rsvps` table (`autoMigrate` defines id, guest_name, email,
phone, number_of_guests, status, category_id, submitted_at), so SQLite
rejects the prepared query with "no such column: side".  With both
filters empty no WHERE clause is added and all rows are returned in
`submitted_at` (insertion) order. -/
def ListAllRSVPs (db : DBState) (status side : String) :
    Except DBError (List RSVP) :=
  if status != "" && side != "" then
    .error .noSuchColumn
  else if status == "" && side != "" then
    .error .noSuchColumn
  else
    .ok db.rsvps

/-- Models `isUniqueConstraintError`: true iff the error message contains
"UNIQUE constraint failed", which is exactly the SQLite unique/primary-key
violation modelled by `DBError.uniqueConstraint`. -/
def isUniqueConstraintError : DBError → Bool
  | .uniqueConstraint => true
  | _ => false

/-- Request body of `POST /api/rsvp` (`handlerSubmitRSVP`'s `parameters`).
Absent JSON fields decode to the zero value (empty string / 0). -/
structure SubmitParams where
  name : String
  email : String
  phone : String
  guests : Int
  token : String
  selectedSide : String
  deriving Repr, DecidableEq

/-- Response of `handlerSubmitRSVP`: `created s` is the 201 payload
`{success: true, status: s}`; `error code msg` is `respondWithError`. -/
inductive SubmitResp where
  | created (status : String)
  | error (code : Nat) (msg : String)
  deriving Repr, DecidableEq

/-- Response of `handlerGetCategoryMeta`: `ok` is the 200 payload
`{name, side, remainingGuests}`. -/
inductive MetaResp where
  | ok (name side : String) (remainingGuests : Int)
  | error (code : Nat) (msg : String)
  deriving Repr, DecidableEq

/-- Response of `handlerApproveRSVP`: `ok` is the 200 success payload. -/
inductive ApproveResp where
  | ok
  | error (code : Nat) (msg : String)
  deriving Repr, DecidableEq

/-- Response of `handlerListRSVPs`: `ok` carries the RSVP list. -/
inductive ListResp where
  | ok (rsvps : List RSVP)
  | error (code : Nat) (msg : String)
  deriving Repr, DecidableEq

/-- The tail of `handlerSubmitRSVP` from the `CreateRSVP` call on: maps a
unique-constraint failure to 409, any other persistence failure to 500,
and success to the 201 response carrying the persisted status.  (The
notification dispatch that follows is fire-and-forget and does not affect
the response or the store.) -/
def persistAndRespond (db : DBState) (params : SubmitParams)
    (categoryID : Option UUID) (status : String) (freshId : UUID) :
    SubmitResp × DBState :=
  match CreateRSVP db
      { guestName := params.name, numberOfGuests := params.guests,
        email := params.email, phone := params.phone,
        categoryID := categoryID } status freshId with
  | .error e =>
    if isUniqueConstraintError e then
      (.error 409 "This email or phone number has already been used to RSVP.", db)
    else
      (.error 500 "Could not save your RSVP.", db)
  | .ok (newRSVP, db1) => (.created newRSVP.status, db1)

/-- Models `handlerSubmitRSVP` (`handlers_rsvp.go`).  `freshId` is the
`uuid.New()` primary key of the would-be record; `aggFault` injects a
storage failure into the `GetApprovedGuestCount` read, whose error the Go
code discards (`approvedCount, _ := ...`).  Note that `GetCategory` maps
a missing row to the zero category with a nil error, so the handler's
404 branch after it fires only on real storage faults, which this pure
store does not produce; the zero category (with `id = uuid.Nil`) then
flows into the admission decision and the created record.  The Go
comparison `approvedCount+params.Guests > category.MaxGuests` adds 64-bit
ints, so the sum is taken through `wrap64`. -/
def handlerSubmitRSVP (db : DBState) (params : SubmitParams)
    (freshId : UUID) (aggFault : Bool) : SubmitResp × DBState :=
  if params.token ≠ "" then
    match parseUUID params.token with
    | none => (.error 400 "malformed request, unable to parse token to uuid", db)
    | some parsedToken =>
      let category := GetCategory db parsedToken
      let categoryID : Option UUID := some category.id
      let approvedCount := (GetApprovedGuestCountGo db category.id aggFault).1
      let status :=
        if wrap64 (approvedCount + params.guests) > category.maxGuests then
          "PENDING"
        else "APPROVED"
      persistAndRespond db params categoryID status freshId
  else if params.selectedSide ≠ "" then
    persistAndRespond db params none "PENDING" freshId
  else
    (.error 400 "Missing required RSVP information.", db)

/-- Models `handlerGetCategoryMeta` (`handlers_rsvp.go`).  As in
`handlerSubmitRSVP`, the 404 branch after `GetCategory` is unreachable
for a merely-unknown token because the Go accessor swallows
`sql.ErrNoRows`; the handler then reports the zero category's metadata.
(The 500 branch on a failed aggregate read is a real storage fault,
outside the pure store.)  The Go subtraction `category.MaxGuests -
approvedCount` is 64-bit, hence the `wrap64`. -/
def handlerGetCategoryMeta (db : DBState) (token : String) : MetaResp :=
  if token == "" then
    .error 400 "Invitation token is required"
  else
    match parseUUID token with
    | none => .error 400 "invalid rsvp link"
    | some parsedToken =>
      let category := GetCategory db parsedToken
      let approvedCount := approvedGuestSum db category.id
      .ok category.name category.side
        (wrap64 (category.maxGuests - approvedCount))

/-- Request body of `POST /api/admin/rsvps/approve` (`handlerApproveRSVP`'s
`parameters`).  `categoryId` is a plain `uuid.UUID`, so an absent JSON
field decodes to `uuid.Nil`. -/
structure ApproveParams where
  rsvpId : UUID
  action : String
  categoryId : UUID
  deriving Repr, DecidableEq

/-- The tail of `handlerApproveRSVP` from `newStatus := params.Action + "D"`
on: attempts the status write and maps its failure to a 500 response with
the store unchanged.  (Notification dispatch afterwards is
fire-and-forget.) -/
def updateStatusAndRespond (db : DBState) (rsvp : RSVP) (action : String) :
    ApproveResp × DBState :=
  let newStatus := action ++ "D"
  match UpdateRSVPStatus db rsvp.id newStatus with
  | .error _ => (.error 500 "Failed to update RSVP status", db)
  | .ok db1 => (.ok, db1)

/-- Models `handlerApproveRSVP` (admin handlers file).  `GetRSVP` swallows
`sql.ErrNoRows`, so the not-found test is the Go code's `rsvp.ID ==
uuid.Nil` check.  When the action is APPROVE and the record has no
category, a zero `categoryId` is rejected with 400 and otherwise the
category is assigned; no capacity check of any kind is performed before
the status write. -/
def handlerApproveRSVP (db : DBState) (params : ApproveParams) :
    ApproveResp × DBState :=
  let rsvp := GetRSVP db params.rsvpId
  if rsvp.id = uuidNil then
    (.error 404 "RSVP not found", db)
  else if params.action = "APPROVE" ∧ rsvp.categoryID = none then
    if params.categoryId = uuidNil then
      (.error 400 "A category must be assigned to approve this RSVP", db)
    else
      match AssignCategoryToRSVP db rsvp.id params.categoryId with
      | .error _ => (.error 500 "Could not assign category", db)
      | .ok db1 => updateStatusAndRespond db1 rsvp params.action
  else
    updateStatusAndRespond db rsvp params.action

/-- Models `handlerListRSVPs` (admin handlers file) after the auth
middleware has attached the caller's couple record: the handler passes
the `status` query parameter and the caller's side to `ListAllRSVPs` and
maps a query failure to 500.  The caller's side comes from the `couples`
row, whose schema constrains it to BRIDE or GROOM (never empty). -/
def handlerListRSVPs (db : DBState) (status side : String) : ListResp :=
  match ListAllRSVPs db status side with
  | .error _ => .error 500 "Could not retrieve RSVPs"
  | .ok rsvps => .ok rsvps

/-! Concrete fixtures used by the scenario theorems below. -/

/-- A canonical UUID used as a category id (and hence as the invitation
token the handlers resolve, since `GetCategory` selects by `id`). -/
def uuidA : UUID := "11111111-1111-1111-1111-111111111111"

/-- A canonical UUID matching no category in the fixtures. -/
def uuidB : UUID := "22222222-2222-2222-2222-222222222222"

/-- A category with a quota of 2 guests. -/
def catFamily : GuestCategory :=
  { id := uuidA, name := "Family", side := "BRIDE", maxGuests := 2,
    invitationToken := some uuidA, defaultCategory := false, coupleID := "cp" }

/-- A store holding one category and no RSVPs. -/
def dbOneCategory : DBState := { categories := [catFamily], rsvps := [] }

/-- A store with no categories and no RSVPs. -/
def dbNoCategories : DBState := { categories := [], rsvps := [] }

/-- An approved RSVP of 2 guests that fills `catFamily`'s quota. -/
def rsvpFull : RSVP :=
  { id := "aaaaaaaa-0000-0000-0000-000000000001", guestName := "Bob",
    numberOfGuests := 2, email := "bob@example.com", phone := "0802",
    status := "APPROVED", categoryID := some uuidA }

/-- A pending, uncategorized (open-website) RSVP of 1 guest. -/
def rsvpOpen : RSVP :=
  { id := "aaaaaaaa-0000-0000-0000-000000000002", guestName := "Cat",
    numberOfGuests := 1, email := "cat@example.com", phone := "0803",
    status := "PENDING", categoryID := none }

/-- A store in which `catFamily` is exactly at quota and one open
pending RSVP awaits triage. -/
def dbFullCategory : DBState :=
  { categories := [catFamily], rsvps := [rsvpFull, rsvpOpen] }

/-- A store in which `catFamily` is exactly at quota. -/
def dbFullNoPending : DBState :=
  { categories := [catFamily], rsvps := [rsvpFull] }

/-- A token-path submission requesting 3 guests against `catFamily`. -/
def submitThree : SubmitParams :=
  { name := "Ada", email := "ada@example.com", phone := "0801", guests := 3,
    token := uuidA, selectedSide := "" }

/-- A token-path submission requesting 1 guest against `catFamily`. -/
def submitOne : SubmitParams :=
  { name := "Fay", email := "fay@example.com", phone := "0804", guests := 1,
    token := uuidA, selectedSide := "" }

/-- A submission carrying a well-formed token that matches no category. -/
def submitUnknownToken : SubmitParams :=
  { name := "Eve", email := "eve@example.com", phone := "0805", guests := 1,
    token := uuidB, selectedSide := "" }

/-- A token-path submission against `catFamily` requesting the largest
value a Go `int` holds (2^63 - 1 guests): the handler's 64-bit addition
`approvedCount + guests` wraps negative on it. -/
def submitMaxGuests : SubmitParams :=
  { name := "Ola", email := "ola@example.com", phone := "0808",
    guests := 9223372036854775807, token := uuidA, selectedSide := "" }

/-- The admin request approving the RSVP persisted as "r1" with no
category id supplied. -/
def approveR1 : ApproveParams :=
  { rsvpId := "r1", action := "APPROVE", categoryId := uuidNil }

/-- The admin request approving the open RSVP `rsvpOpen` into the full
category `catFamily`. -/
def approveOpenIntoFull : ApproveParams :=
  { rsvpId := rsvpOpen.id, action := "APPROVE", categoryId := uuidA }

/-- No existing row conflicts with the submission's unique columns or the
fresh primary key: exactly the condition under which `CreateRSVP`'s
INSERT succeeds. -/
def canInsert (db : DBState) (p : SubmitParams) (freshId : UUID) : Prop :=
  ∀ r ∈ db.rsvps, r.id ≠ freshId ∧ r.email ≠ p.email ∧ r.phone ≠ p.phone

instance (db : DBState) (p : SubmitParams) (freshId : UUID) :
    Decidable (canInsert db p freshId) := by
  unfold canInsert
  infer_instance

/-- The row `CreateRSVP` builds from a submission. -/
def newRSVPRec (p : SubmitParams) (freshId : UUID) (status : String)
    (cid : Option UUID) : RSVP :=
  { id := freshId, guestName := p.name, numberOfGuests := p.guests,
    email := p.email, phone := p.phone, status := status, categoryID := cid }

/-- The submission reaches the persistence call of `handlerSubmitRSVP`:
either the token path with a parseable token, or the open path with a
non-empty selected side. -/
def reachesPersist (p : SubmitParams) : Prop :=
  (p.token ≠ "" ∧ (parseUUID p.token).isSome) ∨
  (p.token = "" ∧ p.selectedSide ≠ "")

instance (p : SubmitParams) : Decidable (reachesPersist p) := by
  unfold reachesPersist
  infer_instance

/-- Every persisted RSVP's status is one of the three values admitted by
the schema's CHECK constraint. -/
def statusInvariant (db : DBState) : Prop :=
  ∀ r ∈ db.rsvps, r.status ∈ allowedStatuses

instance (db : DBState) : Decidable (statusInvariant db) := by
  unfold statusInvariant
  infer_instance

/-- An open-path (no token, side selected) submission. -/
def submitSide : SubmitParams :=
  { name := "Gus", email := "gus@example.com", phone := "0806", guests := 5,
    token := "", selectedSide := "BRIDE" }

/-- An open-path submission reusing `submitSide`'s email with a fresh
phone. -/
def submitDupEmail : SubmitParams :=
  { name := "Han", email := "gus@example.com", phone := "0807", guests := 2,
    token := "", selectedSide := "GROOM" }

/-- A store holding only the open pending RSVP `rsvpOpen`. -/
def dbOpenOnly : DBState := { categories := [], rsvps := [rsvpOpen] }

/-- An admin request with an action outside APPROVE / REJECT / REJECTE. -/
def approveCancel : ApproveParams :=
  { rsvpId := rsvpOpen.id, action := "CANCEL", categoryId := uuidNil }

/-- An admin request whose action is the string REJECTE, which the
handler turns into the valid status REJECTED. -/
def approveRejecte : ApproveParams :=
  { rsvpId := rsvpOpen.id, action := "REJECTE", categoryId := uuidNil }

/-!  Helper lemmas shared by the claim theorems. -/

/-- Appending "D" to a string other than APPROVE or REJECTE never lands
in `allowedStatuses` (note that REJECT ++ "D" is REJECTD, which the CHECK
constraint also rejects). -/
lemma append_D_not_allowed (a : String) (h1 : a ≠ "APPROVE")
    (h2 : a ≠ "REJECTE") : (a ++ "D") ∉ allowedStatuses := by
  intro hmem
  have hD : ("D" : String).data = ['D'] := by decide
  simp only [allowedStatuses, List.mem_cons, List.not_mem_nil, or_false] at hmem
  rcases hmem with h | h | h
  · have hd := congrArg String.data h
    rw [String.data_append, hD] at hd
    have := congrArg List.getLast? hd
    rw [List.getLast?_concat] at this
    simp at this
  · have hd := congrArg String.data h
    rw [String.data_append, hD] at hd
    have hra : ("APPROVED" : String).data =
        ("APPROVE" : String).data ++ ['D'] := by decide
    rw [hra] at hd
    have := List.append_cancel_right hd
    exact h1 (String.ext this)
  · have hd := congrArg String.data h
    rw [String.data_append, hD] at hd
    have hra : ("REJECTED" : String).data =
        ("REJECTE" : String).data ++ ['D'] := by decide
    rw [hra] at hd
    have := List.append_cancel_right hd
    exact h2 (String.ext this)

/-- When no stored row conflicts, the persistence tail of Submit creates
the record and answers 201. -/
lemma persistAndRespond_of_canInsert (db : DBState) (p : SubmitParams)
    (cid : Option UUID) (status : String) (freshId : UUID)
    (h : canInsert db p freshId)
    (hstatus : status ∈ allowedStatuses) :
    persistAndRespond db p cid status freshId =
      (.created status,
       { db with rsvps := db.rsvps ++ [newRSVPRec p freshId status cid] }) := by
  have hc : allowedStatuses.contains status = true := by
    simpa using hstatus
  have ha : (db.rsvps.any fun r =>
      r.id == freshId || r.email == p.email || r.phone == p.phone) = false := by
    rw [List.any_eq_false]
    intro r hr
    obtain ⟨h1, h2, h3⟩ := h r hr
    simp [h1, h2, h3]
  unfold persistAndRespond CreateRSVP
  rw [hc, ha]
  rfl

/-- When some stored row reuses the submission's email or phone, the
persistence tail of Submit answers 409 and leaves the store unchanged. -/
lemma persistAndRespond_conflict (db : DBState) (p : SubmitParams)
    (cid : Option UUID) (status : String) (freshId : UUID)
    (h : ∃ r ∈ db.rsvps, r.email = p.email ∨ r.phone = p.phone)
    (hstatus : status ∈ allowedStatuses) :
    persistAndRespond db p cid status freshId =
      (.error 409 "This email or phone number has already been used to RSVP.",
       db) := by
  have hc : allowedStatuses.contains status = true := by
    simpa using hstatus
  have ha : (db.rsvps.any fun r =>
      r.id == freshId || r.email == p.email || r.phone == p.phone) = true := by
    rw [List.any_eq_true]
    obtain ⟨r, hr, hor⟩ := h
    refine ⟨r, hr, ?_⟩
    rcases hor with ho | ho <;> simp [ho]
  unfold persistAndRespond CreateRSVP
  rw [hc, ha]
  rfl

/-- A `GetRSVP` result with a non-Nil id is a stored row. -/
lemma getRSVP_mem (db : DBState) (id : UUID)
    (h : (GetRSVP db id).id ≠ uuidNil) : GetRSVP db id ∈ db.rsvps := by
  unfold GetRSVP at h ⊢
  cases hfind : db.rsvps.find? (fun r => r.id == id) with
  | none =>
    rw [hfind] at h
    simp [emptyRSVP] at h
  | some r =>
    simpa using List.mem_of_find?_eq_some hfind

/-- A successful `UpdateRSVPStatus` preserves the status invariant: the
CHECK constraint admits the write only when the new status is allowed (or
no row matched). -/
lemma statusInvariant_updateRSVPStatus (db db1 : DBState) (id : UUID)
    (st : String) (hinv : statusInvariant db)
    (h : UpdateRSVPStatus db id st = .ok db1) : statusInvariant db1 := by
  unfold UpdateRSVPStatus at h
  by_cases hc : ((db.rsvps.any fun r => r.id == id) &&
      !(allowedStatuses.contains st)) = true
  · rw [if_pos hc] at h
    cases h
  · rw [if_neg hc] at h
    cases h
    intro r hr
    rw [List.mem_map] at hr
    obtain ⟨r0, hr0, hmap⟩ := hr
    by_cases hid : (r0.id == id) = true
    · rw [if_pos hid] at hmap
      subst hmap
      have hany : (db.rsvps.any fun r => r.id == id) = true :=
        List.any_eq_true.mpr ⟨r0, hr0, hid⟩
      simp only [hany, Bool.true_and, Bool.not_eq_true'] at hc
      simpa using hc
    · rw [if_neg hid] at hmap
      subst hmap
      exact hinv r0 hr0

/-- `AssignCategoryToRSVP` never touches the status column, so it
preserves the status invariant. -/
lemma statusInvariant_assign (db db1 : DBState) (rid cid : UUID)
    (hinv : statusInvariant db)
    (h : AssignCategoryToRSVP db rid cid = .ok db1) : statusInvariant db1 := by
  unfold AssignCategoryToRSVP at h
  by_cases hc : (db.rsvps.any fun r => r.id == rid) = true
  · rw [if_pos hc] at h
    cases h
    intro r hr
    rw [List.mem_map] at hr
    obtain ⟨r0, hr0, hmap⟩ := hr
    by_cases hid : (r0.id == rid) = true
    · rw [if_pos hid] at hmap
      subst hmap
      exact hinv r0 hr0
    · rw [if_neg hid] at hmap
      subst hmap
      exact hinv r0 hr0
  · rw [if_neg hc] at h
    cases h

/-- The status write of the approve handler preserves the status
invariant whether it succeeds or errors. -/
lemma statusInvariant_updateStatusAndRespond (db : DBState) (r : RSVP)
    (action : String) (hinv : statusInvariant db) :
    statusInvariant (updateStatusAndRespond db r action).2 := by
  unfold updateStatusAndRespond
  cases h : UpdateRSVPStatus db r.id (action ++ "D") with
  | error e => simpa [h] using hinv
  | ok db1 =>
    simp only [h]
    exact statusInvariant_updateRSVPStatus db db1 r.id _ hinv h

/-- On the token path, Submit reduces to the persistence tail with the
resolved category and the admission decision computed from the (possibly
faulted) aggregate read. -/
lemma handlerSubmitRSVP_token (db : DBState) (p : SubmitParams)
    (freshId : UUID) (fault : Bool) (t : UUID)
    (htok : p.token ≠ "") (hparse : parseUUID p.token = some t) :
    handlerSubmitRSVP db p freshId fault =
      persistAndRespond db p (some (GetCategory db t).id)
        (if wrap64 ((GetApprovedGuestCountGo db (GetCategory db t).id fault).1 +
              p.guests) >
            (GetCategory db t).maxGuests then "PENDING" else "APPROVED")
        freshId := by
  unfold handlerSubmitRSVP
  rw [if_pos htok, hparse]

/-- On the open path, Submit reduces to the persistence tail with no
category and status PENDING. -/
lemma handlerSubmitRSVP_side (db : DBState) (p : SubmitParams)
    (freshId : UUID) (fault : Bool)
    (htok : p.token = "") (hside : p.selectedSide ≠ "") :
    handlerSubmitRSVP db p freshId fault =
      persistAndRespond db p none "PENDING" freshId := by
  unfold handlerSubmitRSVP
  rw [if_neg (by simp [htok]), if_pos hside]

/-- A conflict-free submission that reaches persistence answers 201 and
appends exactly one row built from its fields. -/
lemma handlerSubmitRSVP_created (db : DBState) (p : SubmitParams)
    (freshId : UUID) (hr : reachesPersist p) (h : canInsert db p freshId) :
    ∃ st cid, handlerSubmitRSVP db p freshId false =
      (.created st,
       { db with rsvps := db.rsvps ++ [newRSVPRec p freshId st cid] }) := by
  rcases hr with ⟨htok, hsome⟩ | ⟨htok, hside⟩
  · obtain ⟨t, ht⟩ := Option.isSome_iff_exists.mp hsome
    rw [handlerSubmitRSVP_token db p freshId false t htok ht]
    refine ⟨_, some (GetCategory db t).id,
      persistAndRespond_of_canInsert db p _ _ freshId h ?_⟩
    split <;> simp [allowedStatuses]
  · rw [handlerSubmitRSVP_side db p freshId false htok hside]
    exact ⟨"PENDING", none,
      persistAndRespond_of_canInsert db p none "PENDING" freshId h
        (by simp [allowedStatuses])⟩

/-- A submission that reaches persistence against a store already holding
its email or phone answers 409 and leaves the store unchanged. -/
lemma handlerSubmitRSVP_conflict (db : DBState) (p : SubmitParams)
    (freshId : UUID) (hr : reachesPersist p)
    (hdup : ∃ r ∈ db.rsvps, r.email = p.email ∨ r.phone = p.phone) :
    handlerSubmitRSVP db p freshId false =
      (.error 409 "This email or phone number has already been used to RSVP.",
       db) := by
  rcases hr with ⟨htok, hsome⟩ | ⟨htok, hside⟩
  · obtain ⟨t, ht⟩ := Option.isSome_iff_exists.mp hsome
    rw [handlerSubmitRSVP_token db p freshId false t htok ht]
    apply persistAndRespond_conflict db p _ _ freshId hdup
    split <;> simp [allowedStatuses]
  · rw [handlerSubmitRSVP_side db p freshId false htok hside]
    exact persistAndRespond_conflict db p none "PENDING" freshId hdup
      (by simp [allowedStatuses])

/-!  Theorems settling the claims. -/

/-- Claim C1.  The capacity invariant fails on the code: starting from an empty
RSVP store with a quota-2 category, the fully-serialized sequence
Submit(guests = 3, token) — which the admission check correctly parks as
PENDING — followed by Approve(APPROVE) commits APPROVED without any
capacity re-check, leaving the approved-guest sum at 3 > 2 = max_guests. -/
theorem capacity_invariant_violated_by_approve :
    (handlerSubmitRSVP dbOneCategory submitThree "r1" false).1 =
      .created "PENDING" ∧
    (handlerApproveRSVP
        (handlerSubmitRSVP dbOneCategory submitThree "r1" false).2
        approveR1).1 = .ok ∧
    approvedGuestSum
      (handlerApproveRSVP
        (handlerSubmitRSVP dbOneCategory submitThree "r1" false).2
        approveR1).2 uuidA = 3 ∧
    catFamily.maxGuests = 2 :=
  ⟨rfl, rfl, rfl, rfl⟩

/-- Claim C2.  Approving a previously-uncategorized PENDING RSVP does not
re-run any capacity check: with `catFamily` already at full quota
(2 of 2 guests approved), Approve(rsvpId, APPROVE, categoryId = catFamily)
on the categoryless `rsvpOpen` assigns the category and commits APPROVED,
overbooking the category to 3 > 2 = max_guests instead of failing. -/
theorem approve_skips_capacity_recheck :
    approvedGuestSum dbFullCategory uuidA = 2 ∧
    catFamily.maxGuests = 2 ∧
    (handlerApproveRSVP dbFullCategory approveOpenIntoFull).1 = .ok ∧
    approvedGuestSum
      (handlerApproveRSVP dbFullCategory approveOpenIntoFull).2 uuidA = 3 :=
  ⟨rfl, rfl, rfl, rfl⟩

/-- Claim C4.  Submitting with a well-formed token that matches no category
does not fail with 404: `GetCategory` swallows `sql.ErrNoRows` into the
zero category with a nil error, so the handler responds 201 and persists
an RSVP (status PENDING, category reference the Nil UUID) instead of
leaving the store unchanged. -/
theorem submit_unknown_token_creates_rsvp :
    (handlerSubmitRSVP dbNoCategories submitUnknownToken "r4" false).1 =
      .created "PENDING" ∧
    (handlerSubmitRSVP dbNoCategories submitUnknownToken "r4" false).2.rsvps =
      [{ id := "r4", guestName := "Eve", numberOfGuests := 1,
         email := "eve@example.com", phone := "0805", status := "PENDING",
         categoryID := some uuidNil }] :=
  ⟨rfl, rfl⟩

/-- Claim C5.  GetPublicMeta with a well-formed token owned by no category does
not fail with 404: `GetCategory` swallows `sql.ErrNoRows`, so the handler
returns 200 with the zero category's metadata (empty name, empty side,
remaining capacity 0). -/
theorem meta_unknown_token_returns_ok :
    handlerGetCategoryMeta dbNoCategories uuidB = .ok "" "" 0 :=
  rfl

/-- Claim C8.  A failed approved-guest aggregate read during Submit is not
surfaced as a server error: the handler discards the error
(`approvedCount, _ := ...`) and decides admission as if zero guests were
approved.  With `catFamily` already full (2 of 2), a 1-guest submission
under a failing aggregate read is committed APPROVED, overbooking the
category to 3. -/
theorem submit_ignores_aggregate_read_failure :
    approvedGuestSum dbFullNoPending uuidA = 2 ∧
    catFamily.maxGuests = 2 ∧
    (handlerSubmitRSVP dbFullNoPending submitOne "r8" true).1 =
      .created "APPROVED" ∧
    approvedGuestSum
      (handlerSubmitRSVP dbFullNoPending submitOne "r8" true).2 uuidA = 3 :=
  ⟨rfl, rfl, rfl, rfl⟩

/-- Counterexample to claim C3 as stated: with `catFamily` at aggregate 2
of max_guests 2, a conflict-free token submission of 2^63 - 1 guests has
a mathematical sum far above the quota, so the claimed decision rule
demands PENDING — yet the Go 64-bit addition wraps negative and the
handler commits APPROVED. -/
theorem submit_admission_overflow_counterexample :
    approvedGuestSum dbFullNoPending uuidA = 2 ∧
    catFamily.maxGuests = 2 ∧
    ¬(approvedGuestSum dbFullNoPending uuidA + submitMaxGuests.guests ≤
        catFamily.maxGuests) ∧
    (handlerSubmitRSVP dbFullNoPending submitMaxGuests "r9" false).1 =
      .created "APPROVED" :=
  ⟨rfl, rfl, by decide, rfl⟩

/-- Claim C3 (amended).  Submit's admission decision on a conflict-free
submission: when the token resolves to a category the created RSVP's
status is APPROVED iff the sum of the approved-guest aggregate and the
requested guests, computed in Go's wrapping 64-bit integer arithmetic,
stays within max_guests (PENDING otherwise), with the category reference
set; with no token and a non-empty selected side the RSVP is created
PENDING with a null category reference, independent of the guests value.
(The amendment replaces the mathematical sum by the 64-bit wrapped sum
the code computes, which the counterexample forces.) -/
theorem submit_admission_decision (db : DBState) (p : SubmitParams)
    (freshId : UUID) (hins : canInsert db p freshId) :
    (∀ t cat, p.token ≠ "" → parseUUID p.token = some t →
        db.categories.find? (fun c => c.id == t) = some cat →
        handlerSubmitRSVP db p freshId false =
          (.created
              (if wrap64 (approvedGuestSum db cat.id + p.guests) ≤
                  cat.maxGuests then "APPROVED" else "PENDING"),
           { db with rsvps := db.rsvps ++
              [newRSVPRec p freshId
                (if wrap64 (approvedGuestSum db cat.id + p.guests) ≤
                    cat.maxGuests then "APPROVED" else "PENDING")
                (some cat.id)] })) ∧
    (p.token = "" → p.selectedSide ≠ "" →
        handlerSubmitRSVP db p freshId false =
          (.created "PENDING",
           { db with rsvps := db.rsvps ++
              [newRSVPRec p freshId "PENDING" none] })) := by
  constructor
  · intro t cat htok hparse hfind
    have hgc : GetCategory db t = cat := by
      unfold GetCategory
      rw [hfind]
      rfl
    rw [handlerSubmitRSVP_token db p freshId false t htok hparse, hgc]
    have hcnt : (GetApprovedGuestCountGo db cat.id false).1 =
        approvedGuestSum db cat.id := rfl
    rw [hcnt]
    have hflip :
        (if wrap64 (approvedGuestSum db cat.id + p.guests) > cat.maxGuests
          then "PENDING" else "APPROVED") =
        (if wrap64 (approvedGuestSum db cat.id + p.guests) ≤ cat.maxGuests
          then "APPROVED" else "PENDING") := by
      by_cases hle : wrap64 (approvedGuestSum db cat.id + p.guests) ≤
          cat.maxGuests
      · rw [if_neg (not_lt.mpr hle), if_pos hle]
      · rw [if_pos (not_le.mp hle), if_neg hle]
    rw [hflip]
    exact persistAndRespond_of_canInsert db p (some cat.id) _ freshId hins
      (by split <;> simp [allowedStatuses])
  · intro htok hside
    rw [handlerSubmitRSVP_side db p freshId false htok hside]
    exact persistAndRespond_of_canInsert db p none "PENDING" freshId hins
      (by simp [allowedStatuses])

/-- Witness for the amended C3: the token path at a concrete over-quota
input (3 guests against quota 2, aggregate 0, no wrapping) yields PENDING
with the category set, and the open path yields PENDING with a null
category. -/
theorem submit_admission_decision_witness :
    (canInsert dbOneCategory submitThree "r1" ∧
     handlerSubmitRSVP dbOneCategory submitThree "r1" false =
       (.created "PENDING",
        { dbOneCategory with
            rsvps := [newRSVPRec submitThree "r1" "PENDING" (some uuidA)] })) ∧
    (canInsert dbNoCategories submitSide "r2" ∧
     handlerSubmitRSVP dbNoCategories submitSide "r2" false =
       (.created "PENDING",
        { dbNoCategories with
            rsvps := [newRSVPRec submitSide "r2" "PENDING" none] })) := by
  constructor
  · refine ⟨by decide, ?_⟩
    have h := (submit_admission_decision dbOneCategory submitThree "r1"
        (by decide)).1 uuidA catFamily (by decide) (by decide) (by decide)
    rw [h]
    decide
  · exact ⟨by decide,
      (submit_admission_decision dbNoCategories submitSide "r2" (by decide)).2
        rfl (by decide)⟩

/-- Claim C6.  Approve(rsvpId, APPROVE) on an existing RSVP whose category
reference is null fails with the 400 validation error when no categoryId
is supplied, and the store (hence the RSVP's status and category
reference) is unchanged. -/
theorem approve_categoryless_requires_category (db : DBState)
    (p : ApproveParams) (r : RSVP)
    (hfind : db.rsvps.find? (fun x => x.id == p.rsvpId) = some r)
    (hid : r.id ≠ uuidNil)
    (hcat : r.categoryID = none)
    (hact : p.action = "APPROVE")
    (hnone : p.categoryId = uuidNil) :
    handlerApproveRSVP db p =
      (.error 400 "A category must be assigned to approve this RSVP", db) := by
  unfold handlerApproveRSVP GetRSVP
  rw [hfind]
  simp only [Option.getD_some]
  rw [if_neg hid, if_pos ⟨hact, hcat⟩, if_pos hnone]

/-- Witness for C6 at the concrete categoryless pending RSVP `rsvpOpen`. -/
theorem approve_categoryless_requires_category_witness :
    handlerApproveRSVP dbFullCategory
      { rsvpId := rsvpOpen.id, action := "APPROVE", categoryId := uuidNil } =
      (.error 400 "A category must be assigned to approve this RSVP",
       dbFullCategory) :=
  approve_categoryless_requires_category dbFullCategory _ rsvpOpen rfl
    (by decide) rfl rfl rfl

/-- Claim C7.  Two submissions sharing an email or a phone: the one
executed first (conflict-free against the prior store) succeeds, and the
second fails with the 409 conflict error, leaving the store unchanged —
for either order, by instantiating the roles accordingly. -/
theorem submit_duplicate_conflict (db : DBState) (p1 p2 : SubmitParams)
    (id1 id2 : UUID)
    (hins : canInsert db p1 id1)
    (hr1 : reachesPersist p1) (hr2 : reachesPersist p2)
    (hdup : p2.email = p1.email ∨ p2.phone = p1.phone) :
    (∃ st, (handlerSubmitRSVP db p1 id1 false).1 = .created st) ∧
    handlerSubmitRSVP (handlerSubmitRSVP db p1 id1 false).2 p2 id2 false =
      (.error 409 "This email or phone number has already been used to RSVP.",
       (handlerSubmitRSVP db p1 id1 false).2) := by
  obtain ⟨st, cid, heq⟩ := handlerSubmitRSVP_created db p1 id1 hr1 hins
  refine ⟨⟨st, by rw [heq]⟩, ?_⟩
  apply handlerSubmitRSVP_conflict _ p2 id2 hr2
  rw [heq]
  refine ⟨newRSVPRec p1 id1 st cid, by simp, ?_⟩
  rcases hdup with h | h
  · exact Or.inl h.symm
  · exact Or.inr h.symm

/-- Witness for C7: two concrete open-path submissions sharing an email. -/
theorem submit_duplicate_conflict_witness :
    (∃ st, (handlerSubmitRSVP dbNoCategories submitSide "g1" false).1 =
      .created st) ∧
    handlerSubmitRSVP (handlerSubmitRSVP dbNoCategories submitSide "g1" false).2
        submitDupEmail "g2" false =
      (.error 409 "This email or phone number has already been used to RSVP.",
       (handlerSubmitRSVP dbNoCategories submitSide "g1" false).2) :=
  submit_duplicate_conflict dbNoCategories submitSide submitDupEmail "g1" "g2"
    (by decide) (by decide) (by decide) (Or.inl rfl)

/-- Claim C9.  The admin RSVP listing with a non-empty status filter does
not return a filtered list: the query filters on a `side` column that the
`rsvps` table does not have, so for every store and every authenticated
caller (whose side is non-empty by the couples schema) the handler
answers 500. -/
theorem list_rsvps_status_filter_errors (db : DBState) (status side : String)
    (hstatus : status ≠ "") (hside : side ≠ "") :
    handlerListRSVPs db status side = .error 500 "Could not retrieve RSVPs" := by
  have h1 : (status != "" && side != "") = true := by
    simp [bne_iff_ne, hstatus, hside]
  unfold handlerListRSVPs ListAllRSVPs
  rw [if_pos h1]

/-- Witness for C9 at a concrete store and filter. -/
theorem list_rsvps_status_filter_errors_witness :
    handlerListRSVPs dbFullCategory "PENDING" "BRIDE" =
      .error 500 "Could not retrieve RSVPs" :=
  list_rsvps_status_filter_errors dbFullCategory "PENDING" "BRIDE"
    (by decide) (by decide)

/-- Counterexample to claim C10 as stated: the action string REJECTE lies
outside {APPROVE, REJECT}, yet REJECTE ++ "D" = "REJECTED" passes the
CHECK constraint, so the handler answers 200 and rewrites the status
instead of returning a server error with the status unchanged. -/
theorem approve_rejecte_action_commits :
    ("REJECTE" ∉ (["APPROVE", "REJECT"] : List String)) ∧
    handlerApproveRSVP dbOpenOnly approveRejecte =
      (.ok, { categories := [],
              rsvps := [{ rsvpOpen with status := "REJECTED" }] }) :=
  ⟨by decide, rfl⟩

/-- Claim C10 (amended).  Every store satisfying the status invariant
still satisfies it after any Approve call, and for every action outside
{APPROVE, REJECTE} on an existing RSVP the computed status action ++ "D"
violates the CHECK constraint, the handler answers 500, and the store is
unchanged.  (The amendment replaces REJECT by REJECTE in the exception
set: REJECT ++ "D" = "REJECTD" also violates the constraint, while
REJECTE ++ "D" = "REJECTED" does not.) -/
theorem approve_status_check_constraint (db : DBState) (p : ApproveParams)
    (hinv : statusInvariant db) :
    statusInvariant (handlerApproveRSVP db p).2 ∧
    (p.action ≠ "APPROVE" → p.action ≠ "REJECTE" →
     (GetRSVP db p.rsvpId).id ≠ uuidNil →
     handlerApproveRSVP db p =
       (.error 500 "Failed to update RSVP status", db)) := by
  constructor
  · simp only [handlerApproveRSVP]
    by_cases h404 : (GetRSVP db p.rsvpId).id = uuidNil
    · rw [if_pos h404]
      exact hinv
    · rw [if_neg h404]
      by_cases happ : p.action = "APPROVE" ∧ (GetRSVP db p.rsvpId).categoryID = none
      · rw [if_pos happ]
        by_cases hcid : p.categoryId = uuidNil
        · rw [if_pos hcid]
          exact hinv
        · rw [if_neg hcid]
          cases hassign :
              AssignCategoryToRSVP db (GetRSVP db p.rsvpId).id p.categoryId with
          | error e =>
            simp only [hassign]
            exact hinv
          | ok db1 =>
            simp only [hassign]
            exact statusInvariant_updateStatusAndRespond db1 _ p.action
              (statusInvariant_assign db db1 _ _ hinv hassign)
      · rw [if_neg happ]
        exact statusInvariant_updateStatusAndRespond db _ p.action hinv
  · intro hne1 hne2 hfound
    simp only [handlerApproveRSVP]
    rw [if_neg hfound, if_neg (fun hand => hne1 hand.1)]
    have hbad : (p.action ++ "D") ∉ allowedStatuses :=
      append_D_not_allowed p.action hne1 hne2
    have hany : (db.rsvps.any fun r =>
        r.id == (GetRSVP db p.rsvpId).id) = true :=
      List.any_eq_true.mpr
        ⟨GetRSVP db p.rsvpId, getRSVP_mem db p.rsvpId hfound, by simp⟩
    have hupd : UpdateRSVPStatus db (GetRSVP db p.rsvpId).id (p.action ++ "D") =
        .error .checkConstraint := by
      unfold UpdateRSVPStatus
      rw [if_pos]
      rw [hany, Bool.true_and]
      simpa using hbad
    simp only [updateStatusAndRespond, hupd]

/-- Witness for the amended C10 at the concrete action CANCEL on an
existing pending RSVP. -/
theorem approve_status_check_constraint_witness :
    statusInvariant (handlerApproveRSVP dbOpenOnly approveCancel).2 ∧
    handlerApproveRSVP dbOpenOnly approveCancel =
      (.error 500 "Failed to update RSVP status", dbOpenOnly) := by
  have h := approve_status_check_constraint dbOpenOnly approveCancel (by decide)
  exact ⟨h.1, h.2 (by decide) (by decide) (by decide)⟩

end BTS
